import Mathlib

/-!
# Verification of `portfolio_manager.py`

A shallow embedding of the portfolio manager: a JSON-backed list of ticker
symbols with add/remove/list/update operations, a command-line dispatcher,
and an external stock-info collaborator.

Modelling conventions:
* Python `str.upper()` / `str.lower()` are embedded character-wise as
  `pyUpper` / `pyLower` (Lean `Char.toUpper` / `Char.toLower` per character).
* The JSON layer (`json.load` / `json.dump`) is embedded at the value level:
  the backing file holds either a parsed JSON value or malformed text that
  `json.load` rejects.  `json.dump` followed by `json.load` is the identity
  on values, which is the behaviour of the Python library on the documents
  this program writes (objects, arrays, strings).
* The in-memory `self.config` dict is modelled by the structure `Config`
  whose `stocks` field stands for `config['portfolio']['stocks']`; documents
  are modelled up to that field (the program only ever reads and writes it).
* The external collaborator `StockInfoManager` is a parameter: `update_ticker`
  is a function `String → Except PyError StockInfo` (an `Except.error` models
  a raised exception), `get_info` a total function.  Collaborator calls are
  logged in the `calls` field of each operation's effect.
* A raised Python exception propagates as `Except.error`; an uncaught one
  terminates the process with exit code 1, a normal return with exit code 0
  (the source never calls `sys.exit`).
-/

namespace PortfolioManager

/-- JSON values, as far as this program produces or consumes them. -/
inductive Json where
  | str (s : String)
  | arr (elems : List Json)
  | obj (fields : List (String × Json))

/-- The record returned by the collaborator for one ticker
(company, industry, sector, peers, sector ETF). -/
structure StockInfo where
  company : String
  industry : String
  sector : String
  peers : List String
  sector_etf : String
deriving DecidableEq

/-- The in-memory configuration document; `stocks` stands for the
`config['portfolio']['stocks']` list of the Python dict. -/
structure Config where
  stocks : List String
deriving DecidableEq

/-- Content of the backing `config.json` file: either text that `json.load`
parses to the value `j`, or text it rejects with a `JSONDecodeError`. -/
inductive FileContent where
  | content (j : Json)
  | malformed

/-- Exceptions that can propagate through this program. -/
inductive PyError where
  | parseError
  | enrichError (ticker : String)
deriving DecidableEq

/-- Calls made to the external `StockInfoManager` collaborator. -/
inductive CollabCall where
  | update_ticker (t : String)
  | get_info (t : String)
  | update_portfolio (ts : List String) (force : Bool)
deriving DecidableEq

/-- Python `str.upper()`, character-wise. -/
def pyUpper (s : String) : String := ⟨s.data.map Char.toUpper⟩

/-- Python `str.lower()`, character-wise. -/
def pyLower (s : String) : String := ⟨s.data.map Char.toLower⟩

/-- The default document `{'portfolio': {'stocks': []}}` created by
`load_config` when no file exists. -/
def default_config : Json :=
  Json.obj [("portfolio", Json.obj [("stocks", Json.arr [])])]

/-- Serialization of the in-memory config back to the JSON document
`{'portfolio': {'stocks': [...]}}` that `save_config` dumps. -/
def configToJson (c : Config) : Json :=
  Json.obj [("portfolio", Json.obj [("stocks", Json.arr (c.stocks.map Json.str))])]

/-- Dict field access `d[k]`, `none` when the key is missing. -/
def lookupField : List (String × Json) → String → Option Json
  | [], _ => none
  | (k', v) :: rest, k => if k' = k then some v else lookupField rest k

/-- Reads a JSON array as a list of strings; `none` if some element is not
a string. -/
def asStringList : List Json → Option (List String)
  | [] => some []
  | Json.str s :: rest => (asStringList rest).map (s :: ·)
  | _ => none

/-- The dict accesses `config['portfolio']['stocks']` performed by every
operation, as one shape check: `none` models the `KeyError`/`TypeError`
those accesses would raise on a document of unexpected shape. -/
def jsonToConfig (j : Json) : Option Config :=
  match j with
  | Json.obj fields =>
    match lookupField fields "portfolio" with
    | some (Json.obj pfields) =>
      match lookupField pfields "stocks" with
      | some (Json.arr elems) => (asStringList elems).map (fun l => ⟨l⟩)
      | _ => none
    | _ => none
  | _ => none

/-- `load_config`: if the backing file exists, parse it and return the
document unchanged (a parse failure propagates); if it does not exist,
write the default document to the file and return it. -/
def load_config (file : Option FileContent) :
    Except PyError (Json × Option FileContent) :=
  match file with
  | some (FileContent.content j) => Except.ok (j, some (FileContent.content j))
  | some FileContent.malformed => Except.error PyError.parseError
  | none =>
    Except.ok (default_config, some (FileContent.content default_config))

/-- State of one `PortfolioManager` object together with its backing file. -/
structure PMState where
  config : Config
  file : Option FileContent

/-- `save_config`: serialize `self.config` and overwrite the backing file. -/
def save_config (s : PMState) : PMState :=
  { s with file := some (FileContent.content (configToJson s.config)) }

/-- Result and side effects of one manager operation: the state afterwards,
the collaborator calls made, the number of `save_config` executions, and the
returned outcome (or the propagated exception). -/
structure OpEffect (α : Type) where
  state : PMState
  calls : List CollabCall
  saves : Nat
  result : Except PyError α

/-- Outcome reported by `add_ticker`. -/
inductive AddOutcome where
  | added (info : StockInfo)
  | alreadyPresent
deriving DecidableEq

/-- Outcome reported by `remove_ticker`. -/
inductive RemoveOutcome where
  | removed
  | notFound
deriving DecidableEq

/-- `add_ticker`: upper-case the raw ticker; if not yet in the list, ask the
collaborator to update it (an exception propagates with nothing mutated),
then append it and save; otherwise report that it is already present. -/
def add_ticker (upd : String → Except PyError StockInfo)
    (s : PMState) (raw : String) : OpEffect AddOutcome :=
  let ticker := pyUpper raw
  if ticker ∉ s.config.stocks then
    match upd ticker with
    | Except.error e =>
      { state := s, calls := [CollabCall.update_ticker ticker], saves := 0,
        result := Except.error e }
    | Except.ok info =>
      let s1 : PMState := { s with config := ⟨s.config.stocks ++ [ticker]⟩ }
      { state := save_config s1, calls := [CollabCall.update_ticker ticker],
        saves := 1, result := Except.ok (AddOutcome.added info) }
  else
    { state := s, calls := [], saves := 0,
      result := Except.ok AddOutcome.alreadyPresent }

/-- `remove_ticker`: upper-case the raw ticker; remove it and save if
present (`list.remove` deletes the first occurrence), otherwise report
"not found". -/
def remove_ticker (s : PMState) (raw : String) : OpEffect RemoveOutcome :=
  let ticker := pyUpper raw
  if ticker ∈ s.config.stocks then
    let s1 : PMState := { s with config := ⟨s.config.stocks.erase ticker⟩ }
    { state := save_config s1, calls := [], saves := 1,
      result := Except.ok RemoveOutcome.removed }
  else
    { state := s, calls := [], saves := 0,
      result := Except.ok RemoveOutcome.notFound }

/-- `list_portfolio`: fetch each stored ticker's info (no forced refresh)
and render it; no state change, no save. -/
def list_portfolio (s : PMState) : OpEffect Unit :=
  { state := s, calls := s.config.stocks.map CollabCall.get_info, saves := 0,
    result := Except.ok () }

/-- `update_all`: batch force-refresh of every stored ticker when the list
is non-empty; reported no-op when empty. -/
def update_all (s : PMState) : OpEffect Unit :=
  if s.config.stocks = [] then
    { state := s, calls := [], saves := 0, result := Except.ok () }
  else
    { state := s, calls := [CollabCall.update_portfolio s.config.stocks true],
      saves := 0, result := Except.ok () }

/-- The `for ticker in sys.argv[2:]: manager.add_ticker(ticker)` loop of
`main`'s `add` branch: each ticker in order, with no exception handler, so
a raised exception aborts the remaining iterations. -/
def add_tickers (upd : String → Except PyError StockInfo) :
    PMState → List String → OpEffect Unit
  | s, [] => { state := s, calls := [], saves := 0, result := Except.ok () }
  | s, t :: rest =>
    let r := add_ticker upd s t
    match r.result with
    | Except.error e =>
      { state := r.state, calls := r.calls, saves := r.saves,
        result := Except.error e }
    | Except.ok _ =>
      let r2 := add_tickers upd r.state rest
      { state := r2.state, calls := r.calls ++ r2.calls,
        saves := r.saves + r2.saves, result := r2.result }

/-- The `remove` branch's loop over `sys.argv[2:]`. -/
def remove_tickers : PMState → List String → OpEffect Unit
  | s, [] => { state := s, calls := [], saves := 0, result := Except.ok () }
  | s, t :: rest =>
    let r := remove_ticker s t
    let r2 := remove_tickers r.state rest
    { state := r2.state, calls := r.calls ++ r2.calls,
      saves := r.saves + r2.saves, result := r2.result }

/-- How one process run ended. -/
inductive MainOutcome where
  | interactive
  | completed
  | usage
  | crashed (e : PyError)
deriving DecidableEq

/-- Observable result of one process run: final backing file, process exit
code, how the run ended, collaborator calls, number of saves. -/
structure MainResult where
  file : Option FileContent
  exitCode : Nat
  outcome : MainOutcome
  calls : List CollabCall
  saves : Nat

/-- `main`: construct the manager (running `load_config`, which may create
the file or crash on a parse failure), then dispatch on `sys.argv[1:]`.
`add`/`remove` with at least one ticker run the per-ticker loops; `list` and
`update` take no tickers; anything else prints usage and does nothing.  The
source never calls `sys.exit`, so the exit code is 0 unless an uncaught
exception terminates the process (exit code 1).  A document whose shape the
dict accesses would reject crashes the command branches that touch it. -/
def main (upd : String → Except PyError StockInfo)
    (file : Option FileContent) (argv : List String) : MainResult :=
  match load_config file with
  | Except.error e =>
    { file := file, exitCode := 1, outcome := MainOutcome.crashed e,
      calls := [], saves := 0 }
  | Except.ok (j, file1) =>
    match argv with
    | [] =>
      { file := file1, exitCode := 0, outcome := MainOutcome.interactive,
        calls := [], saves := 0 }
    | cmd :: rest =>
      let command := pyLower cmd
      if command = "add" ∧ rest ≠ [] then
        match jsonToConfig j with
        | none =>
          { file := file1, exitCode := 1,
            outcome := MainOutcome.crashed PyError.parseError,
            calls := [], saves := 0 }
        | some cfg =>
          let r := add_tickers upd { config := cfg, file := file1 } rest
          match r.result with
          | Except.error e =>
            { file := r.state.file, exitCode := 1,
              outcome := MainOutcome.crashed e, calls := r.calls,
              saves := r.saves }
          | Except.ok _ =>
            { file := r.state.file, exitCode := 0,
              outcome := MainOutcome.completed, calls := r.calls,
              saves := r.saves }
      else if command = "remove" ∧ rest ≠ [] then
        match jsonToConfig j with
        | none =>
          { file := file1, exitCode := 1,
            outcome := MainOutcome.crashed PyError.parseError,
            calls := [], saves := 0 }
        | some cfg =>
          let r := remove_tickers { config := cfg, file := file1 } rest
          { file := r.state.file, exitCode := 0,
            outcome := MainOutcome.completed, calls := r.calls,
            saves := r.saves }
      else if command = "list" then
        match jsonToConfig j with
        | none =>
          { file := file1, exitCode := 1,
            outcome := MainOutcome.crashed PyError.parseError,
            calls := [], saves := 0 }
        | some cfg =>
          let r := list_portfolio { config := cfg, file := file1 }
          { file := r.state.file, exitCode := 0,
            outcome := MainOutcome.completed, calls := r.calls,
            saves := r.saves }
      else if command = "update" then
        match jsonToConfig j with
        | none =>
          { file := file1, exitCode := 1,
            outcome := MainOutcome.crashed PyError.parseError,
            calls := [], saves := 0 }
        | some cfg =>
          let r := update_all { config := cfg, file := file1 }
          { file := r.state.file, exitCode := 0,
            outcome := MainOutcome.completed, calls := r.calls,
            saves := r.saves }
      else
        { file := file1, exitCode := 0, outcome := MainOutcome.usage,
          calls := [], saves := 0 }

/-- The stock list stored in the backing file, for stating end-to-end
properties; `[]` when absent, malformed or mis-shaped. -/
def stored_stocks (file : Option FileContent) : List String :=
  match file with
  | some (FileContent.content j) =>
    match jsonToConfig j with
    | some c => c.stocks
    | none => []
  | _ => []

/-- A collaborator that resolves every ticker. -/
def okOracle : String → Except PyError StockInfo :=
  fun _ => Except.ok ⟨"Co", "Ind", "Sec", [], "ETF"⟩

/-- A collaborator that fails on `BAD` and resolves everything else. -/
def badOracle : String → Except PyError StockInfo :=
  fun t => if t = "BAD" then Except.error (PyError.enrichError "BAD")
           else Except.ok ⟨"Co", "Ind", "Sec", [], "ETF"⟩

/-- A manager over a freshly created (empty) portfolio. -/
def emptyState : PMState :=
  { config := ⟨[]⟩, file := some (FileContent.content default_config) }

/-- A manager whose portfolio holds the single ticker `AAPL`. -/
def aaplState : PMState :=
  { config := ⟨["AAPL"]⟩,
    file := some (FileContent.content (configToJson ⟨["AAPL"]⟩)) }

/-- The invariant on the stored stock list: duplicate-free, every element
upper-cased (a fixed point of `pyUpper`). -/
def StocksInv (l : List String) : Prop :=
  l.Nodup ∧ ∀ x ∈ l, pyUpper x = x

instance (l : List String) : Decidable (StocksInv l) := by
  unfold StocksInv; infer_instance

/-! ## Helper lemmas -/

theorem toUpper_toUpper (c : Char) : c.toUpper.toUpper = c.toUpper := by
  unfold Char.toUpper
  by_cases h : c.toNat ≥ 97 ∧ c.toNat ≤ 122
  · rw [if_pos h]
    have hv : Nat.isValidChar (c.toNat - 32) := by left; omega
    have ht : (Char.ofNat (c.toNat - 32)).toNat = c.toNat - 32 := by
      simp only [Char.ofNat, Char.ofNatAux, Char.toNat, UInt32.toNat] at *
      rw [dif_pos hv]
      rfl
    rw [if_neg]
    rw [ht]; omega
  · rw [if_neg h, if_neg h]

theorem pyUpper_pyUpper (s : String) : pyUpper (pyUpper s) = pyUpper s := by
  unfold pyUpper
  simp only [List.map_map]
  congr 1
  exact List.map_congr_left (fun c _ => toUpper_toUpper c)

theorem asStringList_map_str (l : List String) :
    asStringList (l.map Json.str) = some l := by
  induction l with
  | nil => rfl
  | cons x xs ih => simp [asStringList, ih]


/-- Claim C1: `add_ticker` is atomic with respect to enrichment: for a ticker not
already present, a failing `update_ticker` call propagates with the state
unchanged and no save; the list is appended to and persisted only after
enrichment succeeds. -/
theorem add_ticker_atomic (upd : String → Except PyError StockInfo)
    (s : PMState) (raw : String) (hnew : pyUpper raw ∉ s.config.stocks) :
    (∀ e, upd (pyUpper raw) = Except.error e →
      add_ticker upd s raw =
        { state := s, calls := [CollabCall.update_ticker (pyUpper raw)],
          saves := 0, result := Except.error e }) ∧
    (∀ info, upd (pyUpper raw) = Except.ok info →
      add_ticker upd s raw =
        { state :=
            { config := ⟨s.config.stocks ++ [pyUpper raw]⟩,
              file := some (FileContent.content
                (configToJson ⟨s.config.stocks ++ [pyUpper raw]⟩)) },
          calls := [CollabCall.update_ticker (pyUpper raw)],
          saves := 1, result := Except.ok (AddOutcome.added info) }) := by
  constructor
  · intro e he
    simp [add_ticker, hnew, he]
  · intro info hi
    simp [add_ticker, hnew, hi, save_config]

theorem add_ticker_atomic_witness :
    (pyUpper "bad" ∉ aaplState.config.stocks) ∧
    add_ticker badOracle aaplState "bad" =
      { state := aaplState, calls := [CollabCall.update_ticker "BAD"],
        saves := 0, result := Except.error (PyError.enrichError "BAD") } :=
  ⟨by decide,
   (add_ticker_atomic badOracle aaplState "bad" (by decide)).1
     (PyError.enrichError "BAD") rfl⟩


/-- Claim C3: `load_config` creates and returns the default document only when the
backing file is absent; a parse failure on an existing file propagates, never
falling back to the default. -/
theorem load_config_default_only_when_absent (j : Json) :
    load_config none =
      Except.ok (default_config, some (FileContent.content default_config)) ∧
    load_config (some FileContent.malformed) =
      Except.error PyError.parseError ∧
    load_config (some (FileContent.content j)) =
      Except.ok (j, some (FileContent.content j)) :=
  ⟨rfl, rfl, rfl⟩

/-- Claim C4: adding an already-present ticker is idempotent: the stored list keeps
exactly one occurrence, the call reports "already present" and performs no
write. -/
theorem add_ticker_idempotent (upd : String → Except PyError StockInfo)
    (s : PMState) (raw : String)
    (hmem : pyUpper raw ∈ s.config.stocks) (hnd : s.config.stocks.Nodup) :
    add_ticker upd s raw =
      { state := s, calls := [], saves := 0,
        result := Except.ok AddOutcome.alreadyPresent } ∧
    (add_ticker upd s raw).state.config.stocks.count (pyUpper raw) = 1 := by
  have h1 : add_ticker upd s raw =
      { state := s, calls := [], saves := 0,
        result := Except.ok AddOutcome.alreadyPresent } := by
    simp [add_ticker, hmem]
  exact ⟨h1, by rw [h1]; exact List.count_eq_one_of_mem hnd hmem⟩

theorem add_ticker_idempotent_witness :
    (pyUpper "AAPL" ∈ aaplState.config.stocks) ∧
    aaplState.config.stocks.Nodup ∧
    add_ticker okOracle aaplState "AAPL" =
      { state := aaplState, calls := [], saves := 0,
        result := Except.ok AddOutcome.alreadyPresent } ∧
    (add_ticker okOracle aaplState "AAPL").state.config.stocks.count "AAPL" = 1 := by
  have h := add_ticker_idempotent okOracle aaplState "AAPL" (by decide) (by decide)
  exact ⟨by decide, by decide, h.1, h.2⟩

/-- Claim C10: adding an already-present ticker makes no collaborator call at all,
leaves the state unchanged and performs no save. -/
theorem add_ticker_present_no_call (upd : String → Except PyError StockInfo)
    (s : PMState) (raw : String) (hmem : pyUpper raw ∈ s.config.stocks) :
    (add_ticker upd s raw).calls = [] ∧
    (add_ticker upd s raw).state = s ∧
    (add_ticker upd s raw).saves = 0 := by
  refine ⟨?_, ?_, ?_⟩ <;> simp [add_ticker, hmem]

theorem add_ticker_present_no_call_witness :
    (pyUpper "aapl" ∈ aaplState.config.stocks) ∧
    (add_ticker badOracle aaplState "aapl").calls = [] ∧
    (add_ticker badOracle aaplState "aapl").state = aaplState ∧
    (add_ticker badOracle aaplState "aapl").saves = 0 := by
  have h := add_ticker_present_no_call badOracle aaplState "aapl" (by decide)
  exact ⟨by decide, h.1, h.2.1, h.2.2⟩

/-- Claim C9: saving the in-memory document and loading the backing file again
yields a document with the same stock list in the same order. -/
theorem save_load_roundtrip (s : PMState) :
    load_config (save_config s).file =
      Except.ok (configToJson s.config, (save_config s).file) ∧
    jsonToConfig (configToJson s.config) = some s.config := by
  constructor
  · rfl
  · simp [jsonToConfig, configToJson, lookupField, asStringList_map_str]


/-- Claim C6: normalization is uniform upper-casing: `add_ticker` stores the
upper-cased form of its raw argument, and `remove_ticker` matches
case-insensitively through the same normalization. -/
theorem normalization_uppercase (upd : String → Except PyError StockInfo)
    (s : PMState) (raw : String) :
    (∀ info, pyUpper raw ∉ s.config.stocks →
      upd (pyUpper raw) = Except.ok info →
      (add_ticker upd s raw).state.config.stocks =
        s.config.stocks ++ [pyUpper raw]) ∧
    (pyUpper raw ∈ s.config.stocks →
      (remove_ticker s raw).state.config.stocks =
        s.config.stocks.erase (pyUpper raw)) := by
  constructor
  · intro info hnew hok
    simp [add_ticker, hnew, hok, save_config]
  · intro hmem
    simp [remove_ticker, hmem, save_config]

theorem normalization_uppercase_witness :
    (pyUpper "aapl" ∉ emptyState.config.stocks) ∧
    okOracle (pyUpper "aapl") = Except.ok ⟨"Co", "Ind", "Sec", [], "ETF"⟩ ∧
    (add_ticker okOracle emptyState "aapl").state.config.stocks = [] ++ ["AAPL"] ∧
    (pyUpper "aapl" ∈ aaplState.config.stocks) ∧
    (remove_ticker aaplState "aapl").state.config.stocks = ["AAPL"].erase "AAPL" := by
  refine ⟨by decide, rfl, ?_, by decide, ?_⟩
  · exact (normalization_uppercase okOracle emptyState "aapl").1
      ⟨"Co", "Ind", "Sec", [], "ETF"⟩ (by decide) rfl
  · exact (normalization_uppercase okOracle aaplState "aapl").2 (by decide)

/-- Claim C7: insertion order is preserved: the concrete add/add/remove/add chain
yields `["MSFT", "GOOG"]`; in general a successful add appends at the end,
and remove deletes exactly the named element, leaving the order of the rest
unchanged. -/
theorem order_preservation :
    (add_ticker okOracle
      (remove_ticker
        (add_ticker okOracle
          (add_ticker okOracle emptyState "AAPL").state "MSFT").state
        "AAPL").state "GOOG").state.config.stocks = ["MSFT", "GOOG"] ∧
    (∀ (upd : String → Except PyError StockInfo) (s : PMState)
        (raw : String) (info : StockInfo),
      pyUpper raw ∉ s.config.stocks → upd (pyUpper raw) = Except.ok info →
      (add_ticker upd s raw).state.config.stocks =
        s.config.stocks ++ [pyUpper raw]) ∧
    (∀ (s : PMState) (raw : String) (l₁ l₂ : List String),
      pyUpper raw ∉ l₁ → s.config.stocks = l₁ ++ pyUpper raw :: l₂ →
      (remove_ticker s raw).state.config.stocks = l₁ ++ l₂) := by
  refine ⟨by decide, ?_, ?_⟩
  · intro upd s raw info hnew hok
    simp [add_ticker, hnew, hok, save_config]
  · intro s raw l₁ l₂ hout hsplit
    have hmem : pyUpper raw ∈ s.config.stocks := by
      rw [hsplit]; simp
    simp only [remove_ticker, hmem, if_pos, save_config]
    rw [hsplit, List.erase_append_right _ hout, List.erase_cons_head]

theorem order_preservation_witness :
    (pyUpper "goog" ∉ aaplState.config.stocks) ∧
    okOracle (pyUpper "goog") = Except.ok ⟨"Co", "Ind", "Sec", [], "ETF"⟩ ∧
    (add_ticker okOracle aaplState "goog").state.config.stocks =
      ["AAPL"] ++ ["GOOG"] ∧
    (pyUpper "AAPL" ∉ ([] : List String)) ∧
    aaplState.config.stocks = [] ++ pyUpper "AAPL" :: [] ∧
    (remove_ticker aaplState "AAPL").state.config.stocks = [] ++ [] := by
  refine ⟨by decide, rfl, ?_, by decide, by decide, ?_⟩
  · exact order_preservation.2.1 okOracle aaplState "goog"
      ⟨"Co", "Ind", "Sec", [], "ETF"⟩ (by decide) rfl
  · exact order_preservation.2.2 aaplState "AAPL" [] [] (by decide) (by decide)

/-- Claim C8: the portfolio invariant (duplicate-free, all elements upper-cased)
is preserved by every `add_ticker` and `remove_ticker` call, for any raw
input and whether enrichment succeeds or fails. -/
theorem invariant_preserved (upd : String → Except PyError StockInfo)
    (s : PMState) (raw : String) (h : StocksInv s.config.stocks) :
    StocksInv (add_ticker upd s raw).state.config.stocks ∧
    StocksInv (remove_ticker s raw).state.config.stocks := by
  obtain ⟨hnd, hup⟩ := h
  constructor
  · by_cases hmem : pyUpper raw ∈ s.config.stocks
    · simpa [add_ticker, hmem] using ⟨hnd, hup⟩
    · cases hu : upd (pyUpper raw) with
      | error e => simpa [add_ticker, hmem, hu] using ⟨hnd, hup⟩
      | ok info =>
        unfold add_ticker
        rw [if_pos hmem, hu]
        simp only [save_config]
        constructor
        · rw [List.nodup_append]
          exact ⟨hnd, List.nodup_singleton _, by
            intro x hx hx'
            simp at hx'
            subst hx'
            exact hmem hx⟩
        · intro x hx
          rcases List.mem_append.mp hx with hx | hx
          · exact hup x hx
          · simp at hx
            subst hx
            exact pyUpper_pyUpper raw
  · by_cases hmem : pyUpper raw ∈ s.config.stocks
    · simp only [remove_ticker, hmem, if_pos, save_config]
      exact ⟨hnd.erase _, fun x hx => hup x (List.mem_of_mem_erase hx)⟩
    · simpa [remove_ticker, hmem] using ⟨hnd, hup⟩

theorem invariant_preserved_witness :
    StocksInv aaplState.config.stocks ∧
    StocksInv (add_ticker okOracle aaplState "msft").state.config.stocks ∧
    StocksInv (remove_ticker aaplState "msft").state.config.stocks := by
  have h := invariant_preserved okOracle aaplState "msft" (by decide)
  exact ⟨by decide, h.1, h.2⟩


/-- Claim C2 counterexample: `add BAD GOOD` where enrichment of `BAD` fails does
NOT leave `GOOD` in the stored list: the uncaught exception aborts the loop
before `GOOD` is processed, the stored list stays empty and the process dies
with exit code 1. -/
theorem batch_add_not_independent :
    ("GOOD" ∉ stored_stocks (main badOracle
      (some (FileContent.content default_config)) ["add", "BAD", "GOOD"]).file) ∧
    stored_stocks (main badOracle
      (some (FileContent.content default_config)) ["add", "BAD", "GOOD"]).file = [] ∧
    (main badOracle
      (some (FileContent.content default_config)) ["add", "BAD", "GOOD"]).outcome =
      MainOutcome.crashed (PyError.enrichError "BAD") ∧
    (main badOracle
      (some (FileContent.content default_config)) ["add", "BAD", "GOOD"]).exitCode = 1 := by
  exact ⟨by decide, rfl, rfl, rfl⟩

/-- Claim C2 (amended): a batch add processes its tickers in order and stops at the
first enrichment failure: the exception propagates uncaught, the failing
ticker and every later one are not added, and nothing is saved from the
failing ticker on; tickers that succeeded earlier remain added, so
`add BAD GOOD` leaves the list empty while `add GOOD BAD` leaves exactly
`GOOD`. -/
theorem batch_add_aborts_at_first_failure :
    (∀ (upd : String → Except PyError StockInfo) (s : PMState)
        (raw : String) (rest : List String) (e : PyError),
      pyUpper raw ∉ s.config.stocks → upd (pyUpper raw) = Except.error e →
      add_tickers upd s (raw :: rest) =
        { state := s, calls := [CollabCall.update_ticker (pyUpper raw)],
          saves := 0, result := Except.error e }) ∧
    stored_stocks (main badOracle
      (some (FileContent.content default_config)) ["add", "BAD", "GOOD"]).file = [] ∧
    stored_stocks (main badOracle
      (some (FileContent.content default_config)) ["add", "GOOD", "BAD"]).file =
      ["GOOD"] := by
  refine ⟨?_, rfl, rfl⟩
  intro upd s raw rest e hnew he
  simp [add_tickers, add_ticker, hnew, he]

theorem batch_add_aborts_at_first_failure_witness :
    (pyUpper "BAD" ∉ emptyState.config.stocks) ∧
    badOracle (pyUpper "BAD") = Except.error (PyError.enrichError "BAD") ∧
    add_tickers badOracle emptyState ["BAD", "GOOD"] =
      { state := emptyState, calls := [CollabCall.update_ticker "BAD"],
        saves := 0, result := Except.error (PyError.enrichError "BAD") } :=
  ⟨by decide, rfl,
   batch_add_aborts_at_first_failure.1 badOracle emptyState "BAD" ["GOOD"]
     (PyError.enrichError "BAD") (by decide) rfl⟩

/-- Claim C5 counterexample: a usage error exits with code 0, not non-zero: `add`
with no tickers prints usage but the process terminates normally. -/
theorem usage_exit_code_zero :
    (main okOracle (some (FileContent.content default_config)) ["add"]).outcome =
      MainOutcome.usage ∧
    (main okOracle (some (FileContent.content default_config)) ["add"]).exitCode = 0 :=
  ⟨rfl, rfl⟩

/-- Claim C5 (amended): on an unrecognized verb, or `add`/`remove` without ticker
arguments, `main` prints usage text, dispatches no portfolio operation, makes
no collaborator call, performs no save and leaves the existing backing file
unchanged — but the process exits with code 0 (the source never calls
`sys.exit`), not a non-zero code. -/
theorem usage_error_no_action (upd : String → Except PyError StockInfo)
    (j : Json) (cmd : String) (rest : List String)
    (h : (pyLower cmd ≠ "add" ∧ pyLower cmd ≠ "remove" ∧
          pyLower cmd ≠ "list" ∧ pyLower cmd ≠ "update") ∨
         ((pyLower cmd = "add" ∨ pyLower cmd = "remove") ∧ rest = [])) :
    main upd (some (FileContent.content j)) (cmd :: rest) =
      { file := some (FileContent.content j), exitCode := 0,
        outcome := MainOutcome.usage, calls := [], saves := 0 } := by
  rcases h with ⟨h1, h2, h3, h4⟩ | ⟨h1, h2⟩
  · simp [main, load_config, h1, h2, h3, h4]
  · subst h2
    rcases h1 with h1 | h1 <;> simp [main, load_config, h1]

theorem usage_error_no_action_witness :
    ((pyLower "frobnicate" ≠ "add" ∧ pyLower "frobnicate" ≠ "remove" ∧
      pyLower "frobnicate" ≠ "list" ∧ pyLower "frobnicate" ≠ "update") ∨
     ((pyLower "frobnicate" = "add" ∨ pyLower "frobnicate" = "remove") ∧
      ([] : List String) = [])) ∧
    main okOracle (some (FileContent.content default_config)) ["frobnicate"] =
      { file := some (FileContent.content default_config), exitCode := 0,
        outcome := MainOutcome.usage, calls := [], saves := 0 } :=
  ⟨by decide,
   usage_error_no_action okOracle default_config "frobnicate" [] (by decide)⟩

end PortfolioManager
